import Mathlib

/-!
Verification of the La Croisette checklist bot (src/bot.py).

The development shallowly embeds the parts of the program that the claims
touch: the checklist catalog, user assignments, user registry and
notification settings (Python dicts, modelled as association lists at the
lookup level), the per-user checklist session, the admin commit handlers,
report fan-out on completion, the reminder dispatcher, password rotation,
and the JSON persistence layer.
-/

namespace LaCroisette

/-! ## Association-list maps

Python dicts are modelled as association lists; all properties are stated
at the `alookup` level, which is exactly the observable behaviour of a
dict (first binding of a key wins; the program never creates duplicate
keys).
-/

section AssocMap

variable {κ : Type} [DecidableEq κ] {α : Type} {β : Type}

/-- `d[k]` / `k in d`: look a key up in a dict. -/
def alookup (k : κ) : List (κ × α) → Option α
  | [] => none
  | p :: t => if p.1 = k then some p.2 else alookup k t

/-- `d[k] = v`: replace the first binding of `k`, or append a new one. -/
def aset (k : κ) (v : α) : List (κ × α) → List (κ × α)
  | [] => [(k, v)]
  | p :: t => if p.1 = k then (k, v) :: t else p :: aset k v t

/-- `d.pop(k)` / `del d[k]`: drop every binding of `k`. -/
def aremove (k : κ) : List (κ × α) → List (κ × α)
  | [] => []
  | p :: t => if p.1 = k then aremove k t else p :: aremove k t

theorem alookup_aset_self (k : κ) (v : α) (m : List (κ × α)) :
    alookup k (aset k v m) = some v := by
  induction m with
  | nil => simp [aset, alookup]
  | cons p t ih =>
    by_cases h : p.1 = k
    · simp [aset, alookup, h]
    · simp [aset, alookup, h, ih]

theorem alookup_aset_ne {k k' : κ} (h : k' ≠ k) (v : α) (m : List (κ × α)) :
    alookup k' (aset k v m) = alookup k' m := by
  induction m with
  | nil => simp [aset, alookup, Ne.symm h]
  | cons p t ih =>
    by_cases hp : p.1 = k
    · subst hp
      simp [aset, alookup, Ne.symm h]
    · simp [aset, alookup, hp, ih]

theorem alookup_aremove_self (k : κ) (m : List (κ × α)) :
    alookup k (aremove k m) = none := by
  induction m with
  | nil => simp [aremove, alookup]
  | cons p t ih =>
    by_cases h : p.1 = k
    · simp [aremove, h, ih]
    · simp [aremove, alookup, h, ih]

theorem alookup_aremove_ne {k k' : κ} (h : k' ≠ k) (m : List (κ × α)) :
    alookup k' (aremove k m) = alookup k' m := by
  induction m with
  | nil => simp [aremove]
  | cons p t ih =>
    by_cases hp : p.1 = k
    · subst hp
      simp [aremove, alookup, Ne.symm h, ih]
    · simp [aremove, alookup, hp, ih]

theorem alookup_map_snd (k : κ) (f : α → β) (m : List (κ × α)) :
    alookup k (m.map (fun p => (p.1, f p.2))) = (alookup k m).map f := by
  induction m with
  | nil => simp [alookup]
  | cons p t ih =>
    by_cases h : p.1 = k
    · simp [alookup, h]
    · simp [alookup, h, ih]

theorem alookup_none_of_not_mem_keys {k : κ} {m : List (κ × α)}
    (h : k ∉ m.map Prod.fst) : alookup k m = none := by
  induction m with
  | nil => rfl
  | cons p t ih =>
    simp only [List.map_cons, List.mem_cons, not_or] at h
    have hp : p.1 ≠ k := fun hh => h.1 hh.symm
    simp [alookup, hp, ih h.2]

theorem keys_filter_subset (p : κ × α → Bool) (m : List (κ × α)) :
    ∀ k, k ∈ (m.filter p).map Prod.fst → k ∈ m.map Prod.fst := by
  intro k hk
  rcases List.mem_map.mp hk with ⟨q, hq, rfl⟩
  exact List.mem_map.mpr ⟨q, List.mem_of_mem_filter hq, rfl⟩

/-- Deleting the (unique) binding of `k` from a dict by filtering removes the
key entirely. -/
theorem alookup_filter_none {k : κ} {m : List (κ × α)} (p : κ × α → Bool)
    (hnd : (m.map Prod.fst).Nodup) {a : α} (hk : alookup k m = some a)
    (hp : p (k, a) = false) : alookup k (m.filter p) = none := by
  induction m with
  | nil => simp [alookup] at hk
  | cons q t ih =>
    simp only [List.map_cons, List.nodup_cons] at hnd
    by_cases hq : q.1 = k
    · have hqa : q.2 = a := by
        simpa [alookup, hq] using hk
      have hq' : q = (k, a) := by
        obtain ⟨q1, q2⟩ := q
        simp only at hq hqa
        rw [hq, hqa]
      have hknot : k ∉ t.map Prod.fst := hq ▸ hnd.1
      have htail : alookup k (t.filter p) = none :=
        alookup_none_of_not_mem_keys
          (fun hmem => hknot (keys_filter_subset p t k hmem))
      have hpq : p q = false := by rw [hq']; exact hp
      simp [List.filter_cons, hpq, htail]
    · have hk' : alookup k t = some a := by
        simpa [alookup, hq] using hk
      have htail := ih hnd.2 hk'
      cases hpq : p q with
      | false => simp [List.filter_cons, hpq, htail]
      | true => simp [List.filter_cons, hpq, alookup, hq, htail]

end AssocMap

/-! ## Data model

`checklists : Role → ChecklistName → ordered task list`; assignments are a
dict keyed by `str(user_id)`. Python dict keys carry their runtime type:
`5 in d` never finds the key `"5"` because `int == str` is always `False`.
`PyKey` makes that explicit (the source mixes `user_id` and
`str(user_id)` as keys, see `send_notifications`, src/bot.py 480-488).
-/

abbrev Tasks := List String

abbrev ClMap := List (String × Tasks)

/-- The `checklists` global: role → checklist name → ordered task list
(src/bot.py 209). -/
abbrev Catalog := List (String × ClMap)

/-- A Python dict key together with its runtime type. -/
inductive PyKey where
  | pint (n : Nat)
  | pstr (s : String)
deriving DecidableEq

/-- One entry of `user_assignments` (src/bot.py 1189-1192):
`{"role": ..., "checklist": ...}`. -/
structure Assignment where
  role : String
  checklist : String
deriving DecidableEq

/-- The `user_assignments` global: keys are `str(user_id)` when written by
the program (src/bot.py 1189) or loaded from JSON. -/
abbrev Assignments := List (PyKey × Assignment)

/-- `checklists[role][cl_name]` as a total lookup:
`some tasks` iff `role in checklists and cl_name in checklists[role]`. -/
def lookup2 (cat : Catalog) (r c : String) : Option Tasks :=
  match alookup r cat with
  | some m => alookup c m
  | none => none

/-! ## C5: renaming a checklist (message_handler, RENAME_CHECKLIST commit)

src/bot.py 582-607: if `old_name in checklists[role]`, the task list moves
to the new name (`checklists[role][new_name] = checklists[role].pop(old_name)`)
and every assignment with `{"role": role, "checklist": old_name}` has its
`"checklist"` field overwritten with the new name. When the stored role is
absent the Python lookup raises `KeyError`, caught by the enclosing handler
with no mutation; when `old_name` is absent the handler replies
"Checklist not found!" with no mutation.
-/

def rename_checklist (cat : Catalog) (assigns : Assignments)
    (r old new : String) : Catalog × Assignments :=
  match alookup r cat with
  | none => (cat, assigns)
  | some m =>
    match alookup old m with
    | none => (cat, assigns)
    | some ts =>
      (aset r (aset new ts (aremove old m)) cat,
       assigns.map (fun p =>
         (p.1, if p.2.role = r ∧ p.2.checklist = old then ⟨r, new⟩ else p.2)))

/-! ## C6: deleting a checklist (admin_callback_handler, confirm_delete_cl)

src/bot.py 970-984: if `cl_name in checklists.get(role, {})`, the checklist
is popped and every assignment referencing `(role, cl_name)` is deleted;
otherwise "Checklist not found!" with no mutation.
-/

def confirm_delete_cl (cat : Catalog) (assigns : Assignments)
    (r c : String) : Catalog × Assignments :=
  match alookup r cat with
  | none => (cat, assigns)
  | some m =>
    match alookup c m with
    | none => (cat, assigns)
    | some _ =>
      (aset r (aremove c m) cat,
       assigns.filter (fun p => ! decide (p.2.role = r ∧ p.2.checklist = c)))

/-- Outcome of the name step of `message_handler` (src/bot.py 688-712)
for an already-authenticated user who just entered a name. -/
inductive AuthOutcome where
  | startRun (role checklist : String) (tasks : Tasks)
  | unavailable
  | noAssignment
deriving DecidableEq

/-- src/bot.py 688-712: if `str(user_id) in user_assignments`, start the run
when both the role and checklist still exist, else reply that the assigned
checklist is no longer available; with no assignment, reply
"You don't have an assigned checklist." (the no-checklist-assigned path). -/
def after_name_step (cat : Catalog) (assigns : Assignments) (uid : Nat) :
    AuthOutcome :=
  match alookup (PyKey.pstr (toString uid)) assigns with
  | none => .noAssignment
  | some a =>
    match lookup2 cat a.role a.checklist with
    | some ts => .startRun a.role a.checklist ts
    | none => .unavailable

/-- C5: For every role r, renaming checklist (r, old) to (r, new) yields a
catalog in which old is absent under r and new maps to old's former task
list, and every Assignment that referenced (r, old) now references (r, new);
all other catalog entries and assignments are unchanged. -/
theorem rename_checklist_cascade (cat : Catalog) (assigns : Assignments)
    (r old new : String) (ts : Tasks)
    (hold : lookup2 cat r old = some ts) (hne : old ≠ new) :
    lookup2 (rename_checklist cat assigns r old new).1 r old = none ∧
    lookup2 (rename_checklist cat assigns r old new).1 r new = some ts ∧
    (∀ r', r' ≠ r →
      alookup r' (rename_checklist cat assigns r old new).1 = alookup r' cat) ∧
    (∀ c, c ≠ old → c ≠ new →
      lookup2 (rename_checklist cat assigns r old new).1 r c = lookup2 cat r c) ∧
    (∀ k, alookup k (rename_checklist cat assigns r old new).2 =
      (alookup k assigns).map
        (fun a => if a.role = r ∧ a.checklist = old then ⟨r, new⟩ else a)) := by
  unfold lookup2 at hold
  rcases hm : alookup r cat with _ | m
  · rw [hm] at hold
    exact absurd hold (by simp)
  · rw [hm] at hold
    have hold' : alookup old m = some ts := hold
    have hren : rename_checklist cat assigns r old new =
        (aset r (aset new ts (aremove old m)) cat,
         assigns.map (fun p =>
           (p.1, if p.2.role = r ∧ p.2.checklist = old then ⟨r, new⟩ else p.2))) := by
      unfold rename_checklist
      simp only [hm, hold']
    rw [hren]
    refine ⟨?_, ?_, ?_, ?_, ?_⟩
    · simp [lookup2, alookup_aset_self, alookup_aset_ne hne, alookup_aremove_self]
    · simp [lookup2, alookup_aset_self]
    · intro r' hr'
      exact alookup_aset_ne hr' _ cat
    · intro c hco hcn
      simp only [lookup2, alookup_aset_self, hm]
      rw [alookup_aset_ne hcn, alookup_aremove_ne hco]
    · intro k
      exact alookup_map_snd k
        (fun a => if a.role = r ∧ a.checklist = old then ⟨r, new⟩ else a) assigns

/-- Witness for C5 at a concrete catalog and assignment store. -/
theorem rename_checklist_cascade_witness :
    lookup2 [("Bartender", [("Opening Shift", ["Fill ice bins."]),
      ("Closing Shift", ["Lock the bar."])])] "Bartender" "Opening Shift"
      = some ["Fill ice bins."] ∧
    "Opening Shift" ≠ "Morning Shift" ∧
    lookup2 (rename_checklist
      [("Bartender", [("Opening Shift", ["Fill ice bins."]),
        ("Closing Shift", ["Lock the bar."])])]
      [(PyKey.pstr "5", ⟨"Bartender", "Opening Shift"⟩)]
      "Bartender" "Opening Shift" "Morning Shift").1
      "Bartender" "Morning Shift" = some ["Fill ice bins."] := by
  refine ⟨by decide, by decide, ?_⟩
  exact (rename_checklist_cascade
    [("Bartender", [("Opening Shift", ["Fill ice bins."]),
      ("Closing Shift", ["Lock the bar."])])]
    [(PyKey.pstr "5", ⟨"Bartender", "Opening Shift"⟩)]
    "Bartender" "Opening Shift" "Morning Shift" ["Fill ice bins."]
    (by decide) (by decide)).2.1

/-- C6: Confirmed deletion of checklist (r, c) removes c from role r in the
catalog and removes every Assignment referencing (r, c); a subsequently
authenticating user who was previously assigned (r, c) reaches the
"no checklist assigned" path (an error message, no crash) rather than
starting a run. -/
theorem delete_checklist_cascade (cat : Catalog) (assigns : Assignments)
    (r c : String) (uid : Nat) (ts : Tasks)
    (hcat : lookup2 cat r c = some ts)
    (hass : alookup (PyKey.pstr (toString uid)) assigns = some ⟨r, c⟩)
    (hnd : (assigns.map Prod.fst).Nodup) :
    lookup2 (confirm_delete_cl cat assigns r c).1 r c = none ∧
    (∀ p ∈ (confirm_delete_cl cat assigns r c).2,
      ¬ (p.2.role = r ∧ p.2.checklist = c)) ∧
    (∀ p ∈ assigns, ¬ (p.2.role = r ∧ p.2.checklist = c) →
      p ∈ (confirm_delete_cl cat assigns r c).2) ∧
    after_name_step (confirm_delete_cl cat assigns r c).1
      (confirm_delete_cl cat assigns r c).2 uid = .noAssignment := by
  unfold lookup2 at hcat
  rcases hm : alookup r cat with _ | m
  · rw [hm] at hcat
    exact absurd hcat (by simp)
  · rw [hm] at hcat
    have hcat' : alookup c m = some ts := hcat
    have hdel : confirm_delete_cl cat assigns r c =
        (aset r (aremove c m) cat,
         assigns.filter (fun p => ! decide (p.2.role = r ∧ p.2.checklist = c))) := by
      unfold confirm_delete_cl
      simp only [hm, hcat']
    rw [hdel]
    have hlook : alookup (PyKey.pstr (toString uid))
        (assigns.filter (fun p => ! decide (p.2.role = r ∧ p.2.checklist = c)))
        = none := by
      refine alookup_filter_none _ hnd hass ?_
      simp
    refine ⟨?_, ?_, ?_, ?_⟩
    · simp only [lookup2, alookup_aset_self]
      exact alookup_aremove_self c m
    · intro p hp
      have h := List.of_mem_filter hp
      simp only [Bool.not_eq_true', decide_eq_false_iff_not] at h
      exact h
    · intro p hp hnot
      refine List.mem_filter.mpr ⟨hp, ?_⟩
      simp only [Bool.not_eq_true', decide_eq_false_iff_not]
      exact hnot
    · unfold after_name_step
      rw [hlook]

/-- Witness for C6 at a concrete catalog and assignment store. -/
theorem delete_checklist_cascade_witness :
    after_name_step
      (confirm_delete_cl
        [("Cashier", [("Opening Shift", ["Count the cash."])])]
        [(PyKey.pstr "7", ⟨"Cashier", "Opening Shift"⟩)]
        "Cashier" "Opening Shift").1
      (confirm_delete_cl
        [("Cashier", [("Opening Shift", ["Count the cash."])])]
        [(PyKey.pstr "7", ⟨"Cashier", "Opening Shift"⟩)]
        "Cashier" "Opening Shift").2 7 = .noAssignment :=
  (delete_checklist_cascade
    [("Cashier", [("Opening Shift", ["Count the cash."])])]
    [(PyKey.pstr "7", ⟨"Cashier", "Opening Shift"⟩)]
    "Cashier" "Opening Shift" 7 ["Count the cash."]
    (by decide) (by decide) (by decide)).2.2.2

/-! ## C7 and C9: the sequential task walk

`user_sessions[user_id]` for a user in the task step (src/bot.py 695-702):
`{"name", "role", "checklist", "tasks", "current_task", "results", "step"}`.
The value-level `tasks` field is adequate here because these claims do not
involve catalog mutation during a run (that is C1, modelled separately
with explicit object identity).
-/

structure Session where
  name : String
  role : String
  checklist : String
  tasks : Tasks
  current_task : Nat
  results : List (String × String)
  step : String
deriving DecidableEq

/-- callback_handler, `"task:"` branch (src/bot.py 1512-1529): if the session
is missing or not in the task step, reply "Session expired" with no mutation
(`none`); otherwise append `(session["tasks"][session["current_task"]],
result)` to the results and advance `current_task` by one. Python raises
`IndexError` when `current_task` is out of range (evaluated before the
append, so nothing is mutated; the handler catches it) — also `none`. -/
def task_callback (s : Session) (result : String) : Option Session :=
  if h : s.step = "task" ∧ s.current_task < s.tasks.length then
    some { s with
      results := s.results ++ [(s.tasks.get ⟨s.current_task, h.2⟩, result)],
      current_task := s.current_task + 1 }
  else none

/-- Python `data.split(":")`: split on every occurrence of the separator,
keeping empty pieces; `"".split(":") = [""]`. -/
def split_chars (sep : Char) : List Char → List (List Char)
  | [] => [[]]
  | ch :: t =>
    match split_chars sep t, decide (ch = sep) with
    | r, true => [] :: r
    | [], false => [[ch]]
    | h :: t', false => (ch :: h) :: t'

def py_split (sep : Char) (s : String) : List String :=
  (split_chars sep s.toList).map String.mk

/-- send_task keyboard (src/bot.py 1548-1551): the only two buttons offered
for a task, with their callback payloads. -/
def task_buttons : List (String × String) :=
  [("✅ Done", "task:Done"), ("❌ Not Done", "task:Not Done")]

/-- callback_handler routing (src/bot.py 1512, 1517): callbacks starting
with `"task:"` are task responses and the recorded outcome is
`data.split(":")[1]` — whatever string follows the prefix, verbatim.
The index-1 access cannot fail given the prefix, hence the default. -/
def parse_task_data (data : String) : Option String :=
  if List.isPrefixOf "task:".toList data.toList then
    some ((py_split ':' data).getD 1 "")
  else none

/-- The user-flow callback handler on one session (src/bot.py 1505-1532):
non-`"task:"` data falls through to "Unknown command" with no mutation. -/
def user_callback (s : Session) (data : String) : Option Session :=
  match parse_task_data data with
  | some outcome => task_callback s outcome
  | none => none

/-- C7: For every active session in the task-walking step, each valid task
response appends exactly one (taskText, outcome) pair to the session's
results and increases currentTaskIndex by exactly 1; currentTaskIndex never
decreases, so the same task index can never be answered twice within one
run. -/
theorem task_response_advances (s : Session) (outcome : String) (s' : Session)
    (h : task_callback s outcome = some s') :
    s'.current_task = s.current_task + 1 ∧
    s.current_task < s'.current_task ∧
    s'.results.length = s.results.length + 1 ∧
    ∃ hlt : s.current_task < s.tasks.length,
      s'.results = s.results ++ [(s.tasks.get ⟨s.current_task, hlt⟩, outcome)] := by
  unfold task_callback at h
  split at h
  case isTrue hc =>
    injection h with h
    subst h
    refine ⟨rfl, Nat.lt_succ_self _, by simp, hc.2, rfl⟩
  case isFalse hc =>
    exact absurd h (by simp)

/-- Witness for C7 on a concrete one-task session. -/
theorem task_response_advances_witness :
    task_callback
      ⟨"Alice", "Bartender", "Opening Shift", ["Fill ice bins."], 0, [], "task"⟩
      "Done"
      = some ⟨"Alice", "Bartender", "Opening Shift", ["Fill ice bins."], 1,
        [("Fill ice bins.", "Done")], "task"⟩ ∧
    (1 : Nat) = 0 + 1 := by
  refine ⟨by decide, ?_⟩
  exact (task_response_advances
    ⟨"Alice", "Bartender", "Opening Shift", ["Fill ice bins."], 0, [], "task"⟩
    "Done"
    ⟨"Alice", "Bartender", "Opening Shift", ["Fill ice bins."], 1,
      [("Fill ice bins.", "Done")], "task"⟩
    (by decide)).1

/-- C9 counterexample: the handler records the suffix of any
`"task:"`-prefixed callback verbatim, so a forged callback appends the
outcome "Maybe", which is neither "Done" nor "Not Done", to the results. -/
theorem outcome_not_restricted :
    user_callback
      ⟨"Alice", "Bartender", "Opening Shift", ["Fill ice bins."], 0, [], "task"⟩
      "task:Maybe"
      = some ⟨"Alice", "Bartender", "Opening Shift", ["Fill ice bins."], 1,
        [("Fill ice bins.", "Maybe")], "task"⟩ ∧
    ¬ ("Maybe" = "Done" ∨ "Maybe" = "Not Done") := by
  exact ⟨by decide, by decide⟩

/-- C9 (amended): each task offers exactly the two buttons Done / Not Done,
and a response produced through an offered button appends an outcome that
belongs to the two-element set; the restriction does not hold for arbitrary
callback payloads (see the counterexample), because the handler records
`data.split(":")[1]` without validation. -/
theorem offered_buttons_record_two_outcomes (s : Session) (label cb : String)
    (hbtn : (label, cb) ∈ task_buttons)
    (hstep : s.step = "task") (hidx : s.current_task < s.tasks.length) :
    task_buttons.map Prod.snd = ["task:Done", "task:Not Done"] ∧
    ∃ out, parse_task_data cb = some out ∧ (out = "Done" ∨ out = "Not Done") ∧
      user_callback s cb =
        some { s with
          results := s.results ++ [(s.tasks.get ⟨s.current_task, hidx⟩, out)],
          current_task := s.current_task + 1 } := by
  refine ⟨rfl, ?_⟩
  simp only [task_buttons, List.mem_cons, List.not_mem_nil, or_false] at hbtn
  rcases hbtn with h | h
  · have hcb : cb = "task:Done" := congrArg Prod.snd h
    subst hcb
    refine ⟨"Done", rfl, Or.inl rfl, ?_⟩
    have hred : user_callback s "task:Done" = task_callback s "Done" := rfl
    rw [hred]
    unfold task_callback
    rw [dif_pos ⟨hstep, hidx⟩]
  · have hcb : cb = "task:Not Done" := congrArg Prod.snd h
    subst hcb
    refine ⟨"Not Done", rfl, Or.inr rfl, ?_⟩
    have hred : user_callback s "task:Not Done" = task_callback s "Not Done" := rfl
    rw [hred]
    unfold task_callback
    rw [dif_pos ⟨hstep, hidx⟩]

/-- Witness for the amended C9 on a concrete session and the Not Done
button. -/
theorem offered_buttons_record_two_outcomes_witness :
    ("❌ Not Done", "task:Not Done") ∈ task_buttons ∧
    ∃ out, parse_task_data "task:Not Done" = some out ∧
      (out = "Done" ∨ out = "Not Done") := by
  have h := offered_buttons_record_two_outcomes
    ⟨"Alice", "Bartender", "Opening Shift", ["Fill ice bins."], 0, [], "task"⟩
    "❌ Not Done" "task:Not Done" (by decide) (by decide) (by decide)
  obtain ⟨-, out, hparse, hout, -⟩ := h
  exact ⟨by decide, out, hparse, hout⟩

/-! ## C2: report fan-out on completion (finish_checklist)

src/bot.py 1562-1609. The acknowledgement (1581) precedes the forwarding
try-block; the allowlist loop (1585-1590) runs inside one enclosing try
with no per-recipient handler, so its first failing send aborts everything
that remains; the registry loop (1593-1599) has a per-recipient try, so a
failing send there is logged and skipped. The session cleanup (1604-1606)
runs after the try-block unconditionally. `fails a = true` means
`bot.send_message` to chat `a` raises.
-/

structure UserInfo where
  name : String
  is_admin : Bool
  created_at : String
deriving DecidableEq

def py_digits_to_nat : List Char → Nat → Nat
  | [], acc => acc
  | c :: t, acc => py_digits_to_nat t (acc * 10 + (c.toNat - 48))

/-- Python `int(s)` for the dict keys this program writes, which are always
canonical `str(user_id)` digit strings; on anything else `int` raises,
modelled as `none`. -/
def py_int (s : String) : Option Nat :=
  if s.toList.all Char.isDigit ∧ s.toList ≠ [] then
    some (py_digits_to_nat s.toList 0)
  else none

/-- The `user_data` global: keys are `str(user_id)` (src/bot.py 636, 677). -/
abbrev UserData := List (String × UserInfo)

/-- Second forwarding loop (src/bot.py 1593-1599): attempts every registry
admin not already in ADMIN_IDS; a failing send is caught per-recipient.
`int(uid)` on a non-numeric key would raise outside the inner try and abort
the remainder. Returns the ids attempted. -/
def registry_fanout (adminIds : List Nat) : UserData → List Nat
  | [] => []
  | (uid, info) :: rest =>
    if info.is_admin then
      match py_int uid with
      | none => []
      | some n =>
        if n ∈ adminIds then registry_fanout adminIds rest
        else n :: registry_fanout adminIds rest
    else registry_fanout adminIds rest

/-- First forwarding loop (src/bot.py 1585-1590) over the remaining
allowlist: a failing send aborts the rest of the fan-out, including the
whole registry loop. Returns the ids attempted, in order. -/
def allowlist_fanout (adminIds : List Nat) (userData : UserData)
    (fails : Nat → Bool) : List Nat → List Nat
  | [] => registry_fanout adminIds userData
  | a :: rest =>
    if fails a then [a]
    else a :: allowlist_fanout adminIds userData fails rest

/-- All report-delivery attempts of finish_checklist, in order. -/
def report_fanout (adminIds : List Nat) (userData : UserData)
    (fails : Nat → Bool) : List Nat :=
  allowlist_fanout adminIds userData fails adminIds

structure FinishResult where
  ack_sent : Bool
  attempts : List Nat
  session_cleared : Bool
deriving DecidableEq

/-- finish_checklist (src/bot.py 1562-1609): the "Checklist completed!"
acknowledgement is sent before the forwarding try-block and the session is
deleted after it, both unconditionally. -/
def finish_checklist (adminIds : List Nat) (userData : UserData)
    (fails : Nat → Bool) : FinishResult :=
  ⟨true, report_fanout adminIds userData fails, true⟩

/-- C2 counterexample: with allowlist [1, 2] and a delivery failure to
admin 1 only, admin 2 — also an administrator — never receives a delivery
attempt: the failure aborts the rest of the fan-out. -/
theorem report_fanout_not_isolated :
    2 ∈ [1, 2] ∧
    report_fanout [1, 2] [] (fun a => a == 1) = [1] ∧
    2 ∉ report_fanout [1, 2] [] (fun a => a == 1) := by decide

theorem allowlist_fanout_ok (adminIds : List Nat) (userData : UserData)
    (fails : Nat → Bool) :
    ∀ l : List Nat, (∀ a ∈ l, fails a = false) →
      allowlist_fanout adminIds userData fails l
        = l ++ registry_fanout adminIds userData := by
  intro l
  induction l with
  | nil => intro _; rfl
  | cons a rest ih =>
    intro hok
    have ha : fails a = false := hok a (List.mem_cons_self a rest)
    have hrest := ih (fun b hb => hok b (List.mem_cons_of_mem a hb))
    simp [allowlist_fanout, ha, hrest]

theorem registry_fanout_mem (adminIds : List Nat) :
    ∀ userData : UserData,
      (∀ p ∈ userData, p.2.is_admin = true → (py_int p.1).isSome) →
      ∀ p ∈ userData, p.2.is_admin = true → ∀ n, py_int p.1 = some n →
        n ∈ adminIds ∨ n ∈ registry_fanout adminIds userData := by
  intro userData
  induction userData with
  | nil =>
    intro _ p hp
    exact absurd hp (List.not_mem_nil p)
  | cons q rest ih =>
    intro hkeys p hp hadm n hn
    obtain ⟨uid, info⟩ := q
    rcases List.mem_cons.mp hp with h | h
    · subst h
      simp only at hadm hn
      by_cases hmem : n ∈ adminIds
      · exact Or.inl hmem
      · refine Or.inr ?_
        simp [registry_fanout, hadm, hn, hmem]
    · have hrec := ih (fun q hq hq' => hkeys q (List.mem_cons_of_mem _ hq) hq')
        p h hadm n hn
      rcases hrec with hmem | hmem
      · exact Or.inl hmem
      · refine Or.inr ?_
        by_cases hq : info.is_admin = true
        · have hsome := hkeys (uid, info) (List.mem_cons_self _ rest) hq
          rcases htn : py_int uid with _ | m
          · rw [htn] at hsome
            exact absurd hsome (by simp)
          · by_cases hm : m ∈ adminIds
            · simpa [registry_fanout, hq, htn, hm] using hmem
            · simp [registry_fanout, hq, htn, hm, List.mem_cons]
              exact Or.inr hmem
        · simpa [registry_fanout, hq] using hmem

/-- C2 (amended): the completion acknowledgement and the session cleanup do
not depend on delivery failures; when no send to a static-allowlist admin
fails, every administrator — allowlist, or user registry entry with
isAdmin=true (numeric key) — receives a delivery attempt, and the attempted
list does not depend on which registry sends fail. A delivery failure to an
allowlist admin, however, aborts the attempts to the remaining
administrators (see the counterexample). -/
theorem report_fanout_amended (adminIds : List Nat) (userData : UserData)
    (fails : Nat → Bool) (hok : ∀ a ∈ adminIds, fails a = false)
    (hkeys : ∀ p ∈ userData, p.2.is_admin = true → (py_int p.1).isSome) :
    (finish_checklist adminIds userData fails).ack_sent = true ∧
    (finish_checklist adminIds userData fails).session_cleared = true ∧
    (∀ a ∈ adminIds, a ∈ (finish_checklist adminIds userData fails).attempts) ∧
    (∀ p ∈ userData, p.2.is_admin = true → ∀ n, py_int p.1 = some n →
      n ∈ (finish_checklist adminIds userData fails).attempts) ∧
    (∀ g : Nat → Bool, (∀ a ∈ adminIds, g a = false) →
      finish_checklist adminIds userData g
        = finish_checklist adminIds userData fails) := by
  have hatt : (finish_checklist adminIds userData fails).attempts
      = adminIds ++ registry_fanout adminIds userData :=
    allowlist_fanout_ok adminIds userData fails adminIds hok
  refine ⟨rfl, rfl, ?_, ?_, ?_⟩
  · intro a ha
    rw [hatt]
    exact List.mem_append_left _ ha
  · intro p hp hadm n hn
    rw [hatt]
    rcases registry_fanout_mem adminIds userData hkeys p hp hadm n hn with h | h
    · exact List.mem_append_left _ h
    · exact List.mem_append_right _ h
  · intro g hg
    have hatt' : (finish_checklist adminIds userData g).attempts
        = adminIds ++ registry_fanout adminIds userData :=
      allowlist_fanout_ok adminIds userData g adminIds hg
    unfold finish_checklist at hatt hatt' ⊢
    simp only at hatt hatt'
    rw [show report_fanout adminIds userData g
      = adminIds ++ registry_fanout adminIds userData from hatt',
      show report_fanout adminIds userData fails
      = adminIds ++ registry_fanout adminIds userData from hatt]

/-- Witness for the amended C2: allowlist [1], one registry admin "2",
sends to 2 fail; 2 is still attempted. -/
theorem report_fanout_amended_witness :
    2 ∈ (finish_checklist [1] [("2", ⟨"Bob", true, "2024-01-01"⟩)]
      (fun n => n == 2)).attempts :=
  (report_fanout_amended [1] [("2", ⟨"Bob", true, "2024-01-01"⟩)]
    (fun n => n == 2) (by decide) (by decide)).2.2.2.1
    ("2", ⟨"Bob", true, "2024-01-01"⟩) (by decide) (by decide) 2 (by decide)

/-! ## C3: reminder dispatch (send_notifications)

src/bot.py 471-502. The dispatcher iterates only over the per-user
notification map; for each enabled entry it computes
`user_id = int(user_id_str)` and tests `user_id not in user_assignments` —
an `int` against a dict whose keys are all `str(user_id)` strings, which in
Python never matches (`int == str` is `False`), so every user is skipped
and no reminder is ever sent. The subsequent line 488 indexes
`user_assignments[str(user_id)]`, showing the string keying was intended.
`none` models an uncaught exception (non-numeric key at `int(...)`, or the
line-488 KeyError); `some l` the reminders (user id and assignment, whose
role and checklist the message names).
-/

structure PerUser where
  enabled : Option Bool
deriving DecidableEq

structure NotifSettings where
  enabled : Bool
  reminder_time : String
  users : List (String × PerUser)
deriving DecidableEq

def notif_loop (assigns : Assignments) :
    List (String × PerUser) → Option (List (Nat × Assignment))
  | [] => some []
  | (uidStr, s) :: rest =>
    if (s.enabled.getD true) = false then notif_loop assigns rest
    else
      match py_int uidStr with
      | none => none
      | some uid =>
        if (alookup (PyKey.pint uid) assigns).isNone then notif_loop assigns rest
        else
          match alookup (PyKey.pstr (toString uid)) assigns with
          | none => none
          | some a => (notif_loop assigns rest).map (fun l => (uid, a) :: l)

def send_notifications (ns : NotifSettings) (assigns : Assignments)
    (now : String) : Option (List (Nat × Assignment)) :=
  if ns.enabled = false then some []
  else if now ≠ ns.reminder_time then some []
  else notif_loop assigns ns.users

/-- C3: notifications globally enabled, the reminder time has arrived, user
5 is present and enabled in the per-user map and has an active assignment —
and still no reminder is sent, because the int-vs-str membership test at
src/bot.py 485 never matches. -/
theorem reminders_never_sent :
    send_notifications ⟨true, "09:00", [("5", ⟨some true⟩)]⟩
      [(PyKey.pstr "5", ⟨"Bartender", "Opening Shift"⟩)] "09:00"
      = some [] := by decide

theorem alookup_pint_none (n : Nat) (assigns : Assignments)
    (hkeys : ∀ p ∈ assigns, ∃ s, p.1 = PyKey.pstr s) :
    alookup (PyKey.pint n) assigns = none := by
  induction assigns with
  | nil => rfl
  | cons p t ih =>
    obtain ⟨s, hs⟩ := hkeys p (List.mem_cons_self p t)
    have hne : p.1 ≠ PyKey.pint n := by simp [hs]
    simp [alookup, hne, ih (fun q hq => hkeys q (List.mem_cons_of_mem p hq))]

/-- In every state the program can construct (assignment keys are always
`str(user_id)`), the dispatcher either sends nothing or raises. -/
theorem send_notifications_vacuous (ns : NotifSettings) (assigns : Assignments)
    (now : String) (hkeys : ∀ p ∈ assigns, ∃ s, p.1 = PyKey.pstr s) :
    send_notifications ns assigns now = some []
      ∨ send_notifications ns assigns now = none := by
  unfold send_notifications
  by_cases hen : ns.enabled = false
  · simp [hen]
  · by_cases ht : now ≠ ns.reminder_time
    · simp [hen, ht]
    · simp only [hen, ht, if_false]
      induction ns.users with
      | nil => exact Or.inl rfl
      | cons u rest ih =>
        obtain ⟨uidStr, s⟩ := u
        by_cases hd : (s.enabled.getD true) = false
        · simpa [notif_loop, hd] using ih
        · rcases htn : py_int uidStr with _ | uid
          · refine Or.inr ?_
            simp [notif_loop, hd, htn]
          · have hnone := alookup_pint_none uid assigns hkeys
            simpa [notif_loop, hd, htn, hnone] using ih

/-! ## C4: password generation and rotation

generate_password (src/bot.py 219-222) draws from
`string.ascii_letters + string.digits + "!@#$%^&*"`; the
"gen_pass_confirm" branch (src/bot.py 1047-1057) assigns the global
BOT_PASSWORD and displays the new secret once. The program has no save
path for a password — unlike the four stores, each persisted right after
mutation — so the durable configured secret (the BOT_PASSWORD environment
value, src/bot.py 32) is never rewritten.
-/

def password_alphabet : List Char :=
  "abcdefghijklmnopqrstuvwxyzABCDEFGHIJKLMNOPQRSTUVWXYZ0123456789!@#$%^&*".toList

/-- Ten draws of `secrets.choice(alphabet)`; the randomness source is the
oracle `rnd`, reduced modulo the alphabet size. -/
def generate_password (rnd : Nat → Nat) (len : Nat) : String :=
  String.mk ((List.range len).map
    (fun i => password_alphabet.getD (rnd i % password_alphabet.length) 'a'))

structure AuthConfig where
  bot_password : String
  persisted_password : String
deriving DecidableEq

/-- gen_pass_confirm (src/bot.py 1047-1057): assigns the in-memory global
only and returns the text displayed to the admin; no persistence call. -/
def gen_pass_confirm (cfg : AuthConfig) (newpw : String) : AuthConfig × String :=
  (⟨newpw, cfg.persisted_password⟩, newpw)

/-- message_handler password gate (src/bot.py 663-669): exact string
comparison against the current global. -/
def password_gate (cfg : AuthConfig) (text : String) : Bool :=
  text == cfg.bot_password

/-- C4 counterexample: the rotation replaces only the in-memory secret; the
persisted secret stays what it was (a process restart reverts to it). -/
theorem password_not_persisted :
    (gen_pass_confirm ⟨"old-secret", "old-secret"⟩ "N3wPass!42").1.persisted_password
      = "old-secret" ∧
    ("old-secret" : String) ≠ "N3wPass!42" := by decide

/-- C4 (amended): the rotation produces a ten-character secret drawn from
the printable alphabet, replaces the in-memory secret, displays it once,
and leaves the persisted secret untouched; at the Unauthenticated gate the
old password is immediately rejected and the new one accepted (no grace
period). -/
theorem password_rotation (cfg : AuthConfig) (rnd : Nat → Nat)
    (hne : cfg.bot_password ≠ generate_password rnd 10) :
    (gen_pass_confirm cfg (generate_password rnd 10)).1.bot_password
      = generate_password rnd 10 ∧
    (gen_pass_confirm cfg (generate_password rnd 10)).1.persisted_password
      = cfg.persisted_password ∧
    (gen_pass_confirm cfg (generate_password rnd 10)).2
      = generate_password rnd 10 ∧
    password_gate (gen_pass_confirm cfg (generate_password rnd 10)).1
      (generate_password rnd 10) = true ∧
    password_gate (gen_pass_confirm cfg (generate_password rnd 10)).1
      cfg.bot_password = false ∧
    (generate_password rnd 10).length = 10 ∧
    (∀ ch ∈ (generate_password rnd 10).toList, ch ∈ password_alphabet) := by
  refine ⟨rfl, rfl, rfl, ?_, ?_, ?_, ?_⟩
  · simp [password_gate, gen_pass_confirm]
  · simp only [password_gate, gen_pass_confirm, beq_eq_false_iff_ne, ne_eq]
    exact hne
  · show ((List.range 10).map
      (fun i => password_alphabet.getD (rnd i % password_alphabet.length) 'a')).length = 10
    simp
  · intro ch hch
    have hch' : ch ∈ (List.range 10).map
        (fun i => password_alphabet.getD (rnd i % password_alphabet.length) 'a') := hch
    rcases List.mem_map.mp hch' with ⟨i, _, rfl⟩
    have hlt : rnd i % password_alphabet.length < password_alphabet.length :=
      Nat.mod_lt _ (by decide)
    rw [List.getD_eq_getElem _ _ hlt]
    exact List.getElem_mem hlt

/-- Witness for the amended C4: with a fixed oracle the generated password
is "abcdefghij"; the old password "old-secret" is rejected afterwards. -/
theorem password_rotation_witness :
    password_gate
      (gen_pass_confirm ⟨"old-secret", "old-secret"⟩
        (generate_password (fun i => i) 10)).1 "old-secret" = false :=
  (password_rotation ⟨"old-secret", "old-secret"⟩ (fun i => i)
    (by decide)).2.2.2.2.1

/-! ## C8: commit-time index validation

message_handler EDIT_TASK commit (src/bot.py 562-580) and
admin_callback_handler confirm_delete_task commit (src/bot.py 933-947):
the index captured at menu-render time is re-validated with
`0 <= task_index < len(checklists[role][cl_name])` against the *current*
catalog immediately before mutating. Both embeddings are total: every
failure path is an error reply — including Python's KeyError when the
stored role/checklist has vanished, which the enclosing handlers catch and
report (src/bot.py 713-715 and 1500-1502) — never an uncaught exception.
-/

inductive AdminReply where
  | ok (msg : String)
  | err (msg : String)
deriving DecidableEq

def edit_task_commit (cat : Catalog) (r c : Option String) (i : Option Int)
    (text : String) : Catalog × AdminReply :=
  match r, c, i with
  | some role, some cl, some idx =>
    match alookup role cat with
    | none => (cat, .err "Error processing your message. Please try /start again.")
    | some m =>
      match alookup cl m with
      | none => (cat, .err "Error processing your message. Please try /start again.")
      | some ts =>
        if 0 ≤ idx ∧ idx < (ts.length : Int) then
          (aset role (aset cl (ts.set idx.toNat text) m) cat, .ok "Task updated!")
        else (cat, .err "Task index out of range!")
  | _, _, _ => (cat, .err "Error: Missing data for task update!")

def delete_task_commit (cat : Catalog) (r c : Option String) (idx : Int) :
    Catalog × AdminReply :=
  match r, c with
  | some role, some cl =>
    match alookup role cat with
    | none => (cat, .err "Admin operation error. Please try again.")
    | some m =>
      match alookup cl m with
      | none => (cat, .err "Admin operation error. Please try again.")
      | some ts =>
        if 0 ≤ idx ∧ idx < (ts.length : Int) then
          (aset role (aset cl (ts.eraseIdx idx.toNat) m) cat, .ok "Task deleted")
        else (cat, .err "Task not found!")
  | _, _ => (cat, .err "Task not found!")

/-- C8: both commits mutate only when `0 ≤ i < len(tasks(r,c))` holds
against the catalog as it is at commit time; an out-of-range index leaves
the catalog unchanged and produces an error reply, never an exception (the
embedded handlers are total). -/
theorem commit_time_validation (cat : Catalog) (role cl : String) (i : Int)
    (text : String) (ts : Tasks) (hts : lookup2 cat role cl = some ts) :
    (¬ (0 ≤ i ∧ i < (ts.length : Int)) →
      edit_task_commit cat (some role) (some cl) (some i) text
        = (cat, .err "Task index out of range!") ∧
      delete_task_commit cat (some role) (some cl) i
        = (cat, .err "Task not found!")) ∧
    ((0 ≤ i ∧ i < (ts.length : Int)) →
      lookup2 (edit_task_commit cat (some role) (some cl) (some i) text).1 role cl
        = some (ts.set i.toNat text) ∧
      lookup2 (delete_task_commit cat (some role) (some cl) i).1 role cl
        = some (ts.eraseIdx i.toNat)) := by
  unfold lookup2 at hts
  rcases hm : alookup role cat with _ | m
  · rw [hm] at hts
    exact absurd hts (by simp)
  · rw [hm] at hts
    have hts' : alookup cl m = some ts := hts
    constructor
    · intro hbad
      constructor
      · unfold edit_task_commit
        simp only [hm, hts']
        rw [if_neg hbad]
      · unfold delete_task_commit
        simp only [hm, hts']
        rw [if_neg hbad]
    · intro hgood
      constructor
      · unfold edit_task_commit
        simp only [hm, hts']
        rw [if_pos hgood]
        simp [lookup2, alookup_aset_self]
      · unfold delete_task_commit
        simp only [hm, hts']
        rw [if_pos hgood]
        simp [lookup2, alookup_aset_self]

/-- Witness for C8: a stale index 5 against a one-task checklist is
rejected with an error reply and no mutation. -/
theorem commit_time_validation_witness :
    edit_task_commit [("Security", [("Opening Shift", ["Check cameras."])])]
      (some "Security") (some "Opening Shift") (some 5) "New text"
      = ([("Security", [("Opening Shift", ["Check cameras."])])],
         .err "Task index out of range!") :=
  ((commit_time_validation [("Security", [("Opening Shift", ["Check cameras."])])]
    "Security" "Opening Shift" 5 "New text" ["Check cameras."]
    (by decide)).1 (by decide)).1

/-! ## C1: the session task list is not a snapshot

Python lists are heap objects; `"tasks": checklists[role][cl_name]`
(src/bot.py 698) copies the *reference* into the session, and the admin
task mutations (`.append(text)` at 552, `[i] = text` at 570, `.pop(i)` at
940) mutate that same object in place. Object identity is made explicit
with a heap of list objects.
-/

abbrev Ref := Nat

structure CatalogHeap where
  refs : List (String × List (String × Ref))
  heap : Ref → Tasks

structure SessionRef where
  tasksRef : Ref
  current_task : Nat
  results : List (String × String)
deriving DecidableEq

def heap_lookup (st : CatalogHeap) (r c : String) : Option Ref :=
  match alookup r st.refs with
  | some m => alookup c m
  | none => none

/-- Session synthesis for an assigned user (src/bot.py 694-702): the
session stores the same list object the catalog holds. -/
def start_run (st : CatalogHeap) (r c : String) : Option SessionRef :=
  match heap_lookup st r c with
  | some ref => some ⟨ref, 0, []⟩
  | none => none

/-- ADD_TASK commit (src/bot.py 546-560):
`checklists[role][cl_name].append(text)` mutates the shared list object in
place; the dict structure is unchanged. -/
def add_task_commit (st : CatalogHeap) (r c text : String) : CatalogHeap :=
  match heap_lookup st r c with
  | none => st
  | some ref =>
    ⟨st.refs, fun n => if n = ref then st.heap ref ++ [text] else st.heap n⟩

/-- The task list the running session presents and records
(src/bot.py 1519, 1545): `session["tasks"]`, read from the shared
object. -/
def session_tasks (st : CatalogHeap) (s : SessionRef) : Tasks :=
  st.heap s.tasksRef

def c1_state : CatalogHeap :=
  ⟨[("Bartender", [("Opening Shift", 0)])],
   fun n => if n = 0 then ["Wipe the bar counter."] else []⟩

/-- C1: the session created for ("Bartender", "Opening Shift") holds the
same list object as the catalog, so an admin ADD_TASK performed after
session creation changes the task list the in-progress run sees: the
snapshot property fails at this input. -/
theorem run_sees_catalog_mutation :
    start_run c1_state "Bartender" "Opening Shift" = some ⟨0, 0, []⟩ ∧
    session_tasks c1_state ⟨0, 0, []⟩ = ["Wipe the bar counter."] ∧
    session_tasks
      (add_task_commit c1_state "Bartender" "Opening Shift"
        "Check fire extinguishers.")
      ⟨0, 0, []⟩
      = ["Wipe the bar counter.", "Check fire extinguishers."] :=
  ⟨rfl, rfl, rfl⟩

/-! ## C10: persistence round-trips (json.dump / json.load)

The five stores are persisted with `json.dump` and reloaded with
`json.load` (src/bot.py 91-206, 325-344). Python values are embedded as
`PyVal` (keeping the list/tuple distinction, which Python equality
observes), JSON documents as `JVal`. `json.dump` serializes a tuple as a
JSON array and `json.load` parses every array back as a Python list, so a
round-trip maps tuples to lists and leaves everything else intact.
-/

inductive PyVal where
  | pystr (s : String)
  | pybool (b : Bool)
  | pyint (n : Int)
  | pylist (l : List PyVal)
  | pytuple (l : List PyVal)
  | pydict (m : List (String × PyVal))

inductive JVal where
  | jstr (s : String)
  | jbool (b : Bool)
  | jint (n : Int)
  | jarr (l : List JVal)
  | jobj (m : List (String × JVal))

mutual

def pyToJson : PyVal → JVal
  | .pystr s => .jstr s
  | .pybool b => .jbool b
  | .pyint n => .jint n
  | .pylist l => .jarr (pyToJsonL l)
  | .pytuple l => .jarr (pyToJsonL l)
  | .pydict m => .jobj (pyToJsonM m)

def pyToJsonL : List PyVal → List JVal
  | [] => []
  | v :: t => pyToJson v :: pyToJsonL t

def pyToJsonM : List (String × PyVal) → List (String × JVal)
  | [] => []
  | (k, v) :: t => (k, pyToJson v) :: pyToJsonM t

end

mutual

def jsonToPy : JVal → PyVal
  | .jstr s => .pystr s
  | .jbool b => .pybool b
  | .jint n => .pyint n
  | .jarr l => .pylist (jsonToPyL l)
  | .jobj m => .pydict (jsonToPyM m)

def jsonToPyL : List JVal → List PyVal
  | [] => []
  | v :: t => jsonToPy v :: jsonToPyL t

def jsonToPyM : List (String × JVal) → List (String × PyVal)
  | [] => []
  | (k, v) :: t => (k, jsonToPy v) :: jsonToPyM t

end

/-- `json.dump` followed by `json.load`: save the in-memory value, read it
back. -/
def store_roundtrip (v : PyVal) : PyVal := jsonToPy (pyToJson v)

mutual

def tuple_free : PyVal → Bool
  | .pystr _ => true
  | .pybool _ => true
  | .pyint _ => true
  | .pylist l => tupleFreeL l
  | .pytuple _ => false
  | .pydict m => tupleFreeM m

def tupleFreeL : List PyVal → Bool
  | [] => true
  | v :: t => tuple_free v && tupleFreeL t

def tupleFreeM : List (String × PyVal) → Bool
  | [] => true
  | (_, v) :: t => tuple_free v && tupleFreeM t

end

theorem pyval_ind (P : PyVal → Prop)
    (h1 : ∀ s, P (.pystr s)) (h2 : ∀ b, P (.pybool b)) (h3 : ∀ n, P (.pyint n))
    (h4 : ∀ l, (∀ x ∈ l, P x) → P (.pylist l))
    (h5 : ∀ l, (∀ x ∈ l, P x) → P (.pytuple l))
    (h6 : ∀ m, (∀ kv ∈ m, P kv.2) → P (.pydict m)) :
    ∀ v, P v
  | .pystr s => h1 s
  | .pybool b => h2 b
  | .pyint n => h3 n
  | .pylist l => h4 l (fun x hx => pyval_ind P h1 h2 h3 h4 h5 h6 x)
  | .pytuple l => h5 l (fun x hx => pyval_ind P h1 h2 h3 h4 h5 h6 x)
  | .pydict m => h6 m (fun kv hkv => pyval_ind P h1 h2 h3 h4 h5 h6 kv.2)
termination_by v => sizeOf v
decreasing_by
  · have hlt := List.sizeOf_lt_of_mem hx
    simp only [PyVal.pylist.sizeOf_spec]
    omega
  · have hlt := List.sizeOf_lt_of_mem hx
    simp only [PyVal.pytuple.sizeOf_spec]
    omega
  · have hlt := List.sizeOf_lt_of_mem hkv
    have hlt2 : sizeOf kv.2 < sizeOf kv := by
      obtain ⟨a, b⟩ := kv
      simp
    simp only [PyVal.pydict.sizeOf_spec]
    omega

theorem store_roundtripL (l : List PyVal)
    (ih : ∀ x ∈ l, tuple_free x = true → jsonToPy (pyToJson x) = x)
    (h : tupleFreeL l = true) : jsonToPyL (pyToJsonL l) = l := by
  induction l with
  | nil => rfl
  | cons v t ihl =>
    simp only [tupleFreeL, Bool.and_eq_true] at h
    have hv := ih v (List.mem_cons_self v t) h.1
    simp only [pyToJsonL, jsonToPyL]
    rw [hv, ihl (fun x hx hx' => ih x (List.mem_cons_of_mem v hx) hx') h.2]

theorem store_roundtripM (m : List (String × PyVal))
    (ih : ∀ kv ∈ m, tuple_free kv.2 = true → jsonToPy (pyToJson kv.2) = kv.2)
    (h : tupleFreeM m = true) : jsonToPyM (pyToJsonM m) = m := by
  induction m with
  | nil => rfl
  | cons kv t ihm =>
    obtain ⟨k, v⟩ := kv
    simp only [tupleFreeM, Bool.and_eq_true] at h
    have hv := ih (k, v) (List.mem_cons_self (k, v) t) h.1
    simp only [pyToJsonM, jsonToPyM]
    rw [show jsonToPy (pyToJson v) = v from hv,
        ihm (fun x hx hx' => ih x (List.mem_cons_of_mem (k, v) hx) hx') h.2]

/-- A Python value without tuples comes back identical from a
`json.dump` / `json.load` round-trip. -/
theorem store_roundtrip_id : ∀ v, tuple_free v = true → store_roundtrip v = v := by
  refine pyval_ind (fun v => tuple_free v = true → store_roundtrip v = v)
    ?_ ?_ ?_ ?_ ?_ ?_
  · intro s _; rfl
  · intro b _; rfl
  · intro n _; rfl
  · intro l ih h
    have hfl : tupleFreeL l = true := by simpa [tuple_free] using h
    simp only [store_roundtrip, pyToJson, jsonToPy]
    rw [store_roundtripL l (fun x hx hx' => ih x hx hx') hfl]
  · intro l _ h
    simp [tuple_free] at h
  · intro m ih h
    have hfm : tupleFreeM m = true := by simpa [tuple_free] using h
    simp only [store_roundtrip, pyToJson, jsonToPy]
    rw [store_roundtripM m (fun kv hkv hkv' => ih kv hkv hkv') hfm]

/-! The five stores as the Python process holds them in memory. -/

def pyTasks (ts : Tasks) : PyVal := .pylist (ts.map PyVal.pystr)

def pyClMap (m : ClMap) : PyVal := .pydict (m.map (fun p => (p.1, pyTasks p.2)))

/-- The `checklists` store (src/bot.py 91-164). -/
def pyCatalog (cat : Catalog) : PyVal :=
  .pydict (cat.map (fun p => (p.1, pyClMap p.2)))

def pyAssignment (a : Assignment) : PyVal :=
  .pydict [("role", .pystr a.role), ("checklist", .pystr a.checklist)]

/-- The `user_assignments` store (src/bot.py 166-178). -/
def pyAssignments (l : List (String × Assignment)) : PyVal :=
  .pydict (l.map (fun p => (p.1, pyAssignment p.2)))

def pyUserInfo (u : UserInfo) : PyVal :=
  .pydict [("name", .pystr u.name), ("is_admin", .pybool u.is_admin),
           ("created_at", .pystr u.created_at)]

/-- The `user_data` store (src/bot.py 180-192). -/
def pyUserData (l : UserData) : PyVal :=
  .pydict (l.map (fun p => (p.1, pyUserInfo p.2)))

def pyPerUser (p : PerUser) : PyVal :=
  .pydict (match p.enabled with
    | some b => [("enabled", .pybool b)]
    | none => [])

/-- The `notification_settings` store (src/bot.py 194-206). -/
def pyNotifSettings (ns : NotifSettings) : PyVal :=
  .pydict [("enabled", .pybool ns.enabled),
           ("reminder_time", .pystr ns.reminder_time),
           ("users", .pydict (ns.users.map (fun p => (p.1, pyPerUser p.2))))]

/-- A report record as save_report builds it (src/bot.py 325-344):
`results` is the session's list of (taskText, outcome) *tuples*
(src/bot.py 1519). `time.time()` is modelled at integer precision — JSON
round-trips Python floats exactly, so this does not affect the analysis. -/
def pyReport (tstamp : Int) (date : String) (uid : Int)
    (uname role cl : String) (results : List (String × String)) : PyVal :=
  .pydict [("timestamp", .pyint tstamp), ("date", .pystr date),
           ("user_id", .pyint uid), ("user_name", .pystr uname),
           ("role", .pystr role), ("checklist", .pystr cl),
           ("results", .pylist (results.map
             (fun p => PyVal.pytuple [.pystr p.1, .pystr p.2])))]

/-- The same report as `json.load` returns it: the result pairs are
two-element lists. -/
def pyReportLoaded (tstamp : Int) (date : String) (uid : Int)
    (uname role cl : String) (results : List (String × String)) : PyVal :=
  .pydict [("timestamp", .pyint tstamp), ("date", .pystr date),
           ("user_id", .pyint uid), ("user_name", .pystr uname),
           ("role", .pystr role), ("checklist", .pystr cl),
           ("results", .pylist (results.map
             (fun p => PyVal.pylist [.pystr p.1, .pystr p.2])))]

theorem tupleFreeM_map {α : Type} (f : α → PyVal) (l : List (String × α))
    (h : ∀ p ∈ l, tuple_free (f p.2) = true) :
    tupleFreeM (l.map (fun p => (p.1, f p.2))) = true := by
  induction l with
  | nil => rfl
  | cons p t ih =>
    simp only [List.map_cons, tupleFreeM, Bool.and_eq_true]
    exact ⟨h p (List.mem_cons_self p t),
           ih (fun q hq => h q (List.mem_cons_of_mem p hq))⟩

theorem tuple_free_pyTasks (ts : Tasks) : tuple_free (pyTasks ts) = true := by
  simp only [pyTasks, tuple_free]
  induction ts with
  | nil => rfl
  | cons s t ih => simp [tupleFreeL, tuple_free, ih]

theorem tuple_free_pyClMap (m : ClMap) : tuple_free (pyClMap m) = true := by
  simp only [pyClMap, tuple_free]
  exact tupleFreeM_map pyTasks m (fun p _ => tuple_free_pyTasks p.2)

theorem tuple_free_pyCatalog (cat : Catalog) :
    tuple_free (pyCatalog cat) = true := by
  simp only [pyCatalog, tuple_free]
  exact tupleFreeM_map pyClMap cat (fun p _ => tuple_free_pyClMap p.2)

theorem tuple_free_pyAssignments (l : List (String × Assignment)) :
    tuple_free (pyAssignments l) = true := by
  simp only [pyAssignments, tuple_free]
  exact tupleFreeM_map pyAssignment l (fun p _ => rfl)

theorem tuple_free_pyUserData (l : UserData) :
    tuple_free (pyUserData l) = true := by
  simp only [pyUserData, tuple_free]
  exact tupleFreeM_map pyUserInfo l (fun p _ => rfl)

theorem tuple_free_pyPerUser (p : PerUser) : tuple_free (pyPerUser p) = true := by
  rcases p with ⟨_ | b⟩ <;> rfl

theorem tuple_free_pyNotifSettings (ns : NotifSettings) :
    tuple_free (pyNotifSettings ns) = true := by
  have husers : tupleFreeM (ns.users.map (fun p => (p.1, pyPerUser p.2))) = true :=
    tupleFreeM_map pyPerUser ns.users (fun p _ => tuple_free_pyPerUser p.2)
  simp [pyNotifSettings, tuple_free, tupleFreeM, husers]

theorem results_roundtrip (results : List (String × String)) :
    jsonToPyL (pyToJsonL (results.map
      (fun p => PyVal.pytuple [.pystr p.1, .pystr p.2])))
      = results.map (fun p => PyVal.pylist [.pystr p.1, .pystr p.2]) := by
  induction results with
  | nil => rfl
  | cons p t ih => simp [pyToJsonL, pyToJson, jsonToPyL, jsonToPy, ih]

/-- C10 (amended): the checklist catalog, the assignments, the user
registry and the notification settings round-trip to identical structures;
a saved report round-trips to the same JSON document, but its in-memory
(taskText, outcome) tuples come back as two-element lists, so the loaded
Python structure is not identical (consumers only unpack the pairs, so
behaviour is unaffected). -/
theorem stores_roundtrip (cat : Catalog) (assigns : List (String × Assignment))
    (ud : UserData) (ns : NotifSettings) (tstamp uid : Int)
    (date uname role cl : String) (results : List (String × String)) :
    store_roundtrip (pyCatalog cat) = pyCatalog cat ∧
    store_roundtrip (pyAssignments assigns) = pyAssignments assigns ∧
    store_roundtrip (pyUserData ud) = pyUserData ud ∧
    store_roundtrip (pyNotifSettings ns) = pyNotifSettings ns ∧
    store_roundtrip (pyReport tstamp date uid uname role cl results)
      = pyReportLoaded tstamp date uid uname role cl results := by
  refine ⟨store_roundtrip_id _ (tuple_free_pyCatalog cat),
          store_roundtrip_id _ (tuple_free_pyAssignments assigns),
          store_roundtrip_id _ (tuple_free_pyUserData ud),
          store_roundtrip_id _ (tuple_free_pyNotifSettings ns), ?_⟩
  simp only [pyReport, pyReportLoaded, store_roundtrip, pyToJson, pyToJsonM,
             pyToJsonL, jsonToPy, jsonToPyM, jsonToPyL]
  rw [results_roundtrip results]

/-- C10 counterexample: a saved report holding one (task, outcome) tuple
does not load back as an identical structure — the tuple comes back as a
list, and Python list and tuple values are never equal. -/
theorem report_roundtrip_not_identical :
    store_roundtrip (pyReport 0 "2024-01-01" 5 "Alice" "Bartender"
        "Opening Shift" [("Fill ice bins.", "Done")])
      ≠ pyReport 0 "2024-01-01" 5 "Alice" "Bartender" "Opening Shift"
        [("Fill ice bins.", "Done")] := by
  simp [pyReport, store_roundtrip, pyToJson, pyToJsonM, pyToJsonL,
        jsonToPy, jsonToPyM, jsonToPyL]

end LaCroisette
